import Mathlib

/-!
Verification of the multi-agent orchestration core.

Shallow embedding of the agent execution engine:
* `src/src/lib/agents/core/types.ts` — data model, `Agent.executeToolCall`,
  `Agent.parseToolCalls`, `Agent.runAgentLoop`;
* `src/unnamed/part_007` (`Orchestrator`) — `delegateTask`, `selectBestAgent`;
* `src/unnamed/part_005` (`ContentOrchestrator`) and
  `src/src/lib/agents/orchestrators/MasterOrchestrator.ts` — concrete `execute`;
* `src/src/lib/agents/tools/analytics.ts` — `statisticalAnalysisTool`.

Modelling conventions:
* TypeScript exceptions are `Except String` (the exception's message string).
* The language model, and `JSON.parse`, are external effects: they are
  supplied as an environment (`LoopEnv`).  The model is a function from the
  index of the model call (1-based) to a response or a thrown error, which
  captures every possible sequence of backend outcomes; `callLLM` (types.ts
  lines 321-432) is pure request plumbing around that external call and is
  abstracted by `LoopEnv.model`.
* JS `Map` objects (tool registry, `subAgents`, `pendingTasks`,
  `completedTasks`) are association lists in insertion order; a `Map` holds
  at most one binding per key, so `delete` is modelled as removing every
  binding of the key.
* `uuidv4()` and `new Date()` are environment-supplied: fresh ids and
  timestamps enter as explicit parameters.  The `id`/`timestamp` fields of
  `AgentMessage` are not observed by any property and are omitted.
* JS numbers in the analytics tool are embedded as exact rationals; the one
  irrational value (`Math.sqrt(variance)`) is modelled as a real.
-/

namespace MultiAgent

-- ============================================
-- Association-list maps (JS Map, insertion order)
-- ============================================

/-- `Map.get`: the value bound to `k`, searching in insertion order. -/
def alistLookup {α : Type} (l : List (String × α)) (k : String) : Option α :=
  (l.find? (fun p => p.1 == k)).map (fun p => p.2)

/-- `Map.set`: replace the existing binding of `k` in place, else append. -/
def alistSet {α : Type} : List (String × α) → String → α → List (String × α)
  | [], k, v => [(k, v)]
  | p :: rest, k, v => if p.1 == k then (k, v) :: rest else p :: alistSet rest k v

/-- `Map.delete`: a JS Map holds at most one binding per key; removing every
binding of the key coincides with deleting that single binding. -/
def alistDelete {α : Type} (l : List (String × α)) (k : String) : List (String × α) :=
  l.filter (fun p => !(p.1 == k))

-- ============================================
-- String helpers (JS `toLowerCase`, `includes`)
-- ============================================

/-- Does the second list start with the first? -/
def startsWithList : List Char → List Char → Bool
  | [], _ => true
  | _ :: _, [] => false
  | a :: as, b :: bs => a == b && startsWithList as bs

/-- Is `needle` a contiguous sublist of the second list? -/
def containsList (needle : List Char) : List Char → Bool
  | [] => needle.isEmpty
  | b :: bs => startsWithList needle (b :: bs) || containsList needle bs

/-- JS `String.prototype.toLowerCase` (ASCII case mapping). -/
def strToLower (s : String) : String :=
  String.mk (s.toList.map Char.toLower)

/-- JS `s.includes(sub)`: is `sub` a substring of `s`? -/
def strIncludes (s sub : String) : Bool :=
  containsList sub.toList s.toList

-- ============================================
-- Data model (types.ts lines 10-205)
-- ============================================

/-- Parsed tool-call arguments: `Record<string, unknown>`, with the unknown
values kept in their serialized form. -/
abbrev Params := List (String × String)

/-- `ToolResult` (types.ts lines 24-29); `data` values are kept serialized,
the optional `metadata` bag is not observed by any property and is omitted. -/
structure ToolResult where
  success : Bool
  data : Option String := none
  error : Option String := none
deriving DecidableEq

/-- `ToolDefinition` (types.ts lines 18-22); the parameter schema is not
observed by any property and is omitted. -/
structure ToolDefinition where
  name : String
  description : String := ""
deriving DecidableEq

/-- `Tool` (types.ts lines 31-34): a definition plus an `execute` body that
may throw. -/
structure Tool where
  definition : ToolDefinition
  execute : Params → Except String ToolResult

/-- `LLMResponse.toolCalls` entries (types.ts lines 169-176): the serialized
function-call shape, with `arguments` still a JSON string. -/
structure FnCall where
  id : String
  name : String
  arguments : String
deriving DecidableEq

/-- `finishReason` (types.ts line 177). -/
inductive FinishReason where
  | stop
  | tool_calls
  | length
  | content_filter
deriving DecidableEq

/-- `LLMResponse` (types.ts lines 167-183); `usage` is not observed. -/
structure LLMResponse where
  content : String
  toolCalls : Option (List FnCall) := none
  finishReason : FinishReason
deriving DecidableEq

/-- Message roles (types.ts lines 74, 154). -/
inductive Role where
  | system
  | user
  | assistant
  | tool
deriving DecidableEq

/-- `LLMMessage` (types.ts lines 153-165). -/
structure LLMMessage where
  role : Role
  content : String
  toolCalls : Option (List FnCall) := none
  toolCallId : Option String := none
deriving DecidableEq

/-- Parsed `ToolCall` (types.ts lines 81-85). -/
structure ToolCall where
  id : String
  toolName : String
  arguments : Params
deriving DecidableEq

/-- `AgentMessage` (types.ts lines 72-79); `id` (a fresh uuid) and
`timestamp` (a clock read) are environment-generated and not observed. -/
structure AgentMessage where
  role : Role
  content : String
  toolCalls : Option (List ToolCall) := none
  toolResult : Option ToolResult := none
deriving DecidableEq

/-- Agent status (types.ts line 65). -/
inductive AgentStatus where
  | idle
  | thinking
  | executing
  | waiting
  | error
deriving DecidableEq

/-- `AgentState` (types.ts lines 64-70), with dates as naturals. -/
structure AgentState where
  status : AgentStatus := .idle
  currentTask : Option String := none
  lastActivity : Option Nat := none
  messages : List AgentMessage := []
  context : List (String × String) := []
deriving DecidableEq

/-- The mutable per-`Agent` fields touched by the embedded methods:
`this.state` and `this.messageHistory` (types.ts lines 234, 237). -/
structure AgentVars where
  state : AgentState := {}
  messageHistory : List AgentMessage := []
deriving DecidableEq

/-- `TaskPriority` (types.ts line 91). -/
inductive TaskPriority where
  | low
  | medium
  | high
  | critical
deriving DecidableEq

/-- `TaskStatus` (types.ts line 92). -/
inductive TaskStatus where
  | pending
  | in_progress
  | completed
  | failed
  | delegated
deriving DecidableEq

/-- `TaskResult` (types.ts lines 109-115); `output` values are kept
serialized, `artifacts` is never produced by the embedded code and is
omitted. -/
structure TaskResult where
  success : Bool
  output : Option String := none
  error : Option String := none
  executionTime : Option Nat := none
deriving DecidableEq

/-- `Task` (types.ts lines 94-107), with dates as naturals and the open
`metadata` bag as an association list of serialized values. -/
structure Task where
  id : String
  description : String
  priority : TaskPriority := .medium
  status : TaskStatus := .pending
  assignedTo : Option String := none
  delegatedTo : Option String := none
  subTasks : List String := []
  result : Option TaskResult := none
  createdAt : Nat := 0
  updatedAt : Nat := 0
  metadata : List (String × String) := []
deriving DecidableEq

-- ============================================
-- Agent: tool execution and the reasoning loop
-- (types.ts lines 232-590)
-- ============================================

/-- The external world a `runAgentLoop` call interacts with: the tool
registry `this.tools` plus the two effectful primitives — the model behind
`callLLM` (indexed by the 1-based count of model calls made so far) and
`JSON.parse` on serialized arguments. -/
structure LoopEnv where
  tools : List Tool
  model : Nat → Except String LLMResponse
  parseJson : String → Except String Params

/-- `this.tools.get(name)` where registration keys the map by
`tool.definition.name` (types.ts lines 277-279). -/
def lookupTool (tools : List Tool) (name : String) : Option Tool :=
  tools.find? (fun t => t.definition.name == name)

/-- `Agent.executeToolCall` (types.ts lines 438-457): unknown tool names and
exceptions thrown by the tool body are both converted to a failed
`ToolResult`. -/
def Agent.executeToolCall (tools : List Tool) (toolCall : ToolCall) : ToolResult :=
  match lookupTool tools toolCall.toolName with
  | none => { success := false, error := some ("Unknown tool: " ++ toolCall.toolName) }
  | some tool =>
    match tool.execute toolCall.arguments with
    | .ok result => result
    | .error e => { success := false, error := some e }

/-- `Agent.parseToolCalls` (types.ts lines 459-467): `JSON.parse` each
serialized `arguments`; the first parse failure throws. -/
def Agent.parseToolCalls (parse : String → Except String Params) :
    List FnCall → Except String (List ToolCall)
  | [] => .ok []
  | tc :: rest =>
    match parse tc.arguments with
    | .error e => .error e
    | .ok args =>
      match Agent.parseToolCalls parse rest with
      | .error e => .error e
      | .ok l => .ok ({ id := tc.id, toolName := tc.name, arguments := args } :: l)

/-- `response.toolCalls ? this.parseToolCalls(response.toolCalls) : undefined`
(types.ts lines 494-496); note an empty array is truthy in JS, so an empty
list is still parsed (to an empty list). -/
def parseOptCalls (parse : String → Except String Params) :
    Option (List FnCall) → Except String (Option (List ToolCall))
  | none => .ok none
  | some l =>
    match Agent.parseToolCalls parse l with
    | .error e => .error e
    | .ok pl => .ok (some pl)

/-- A plain rendering of `JSON.stringify(result)` (types.ts lines 526, 536);
the exact text is never observed by a property. -/
def stringifyToolResult (r : ToolResult) : String :=
  "success=" ++ (if r.success then "true" else "false")
    ++ ",data=" ++ (match r.data with | some d => d | none => "undefined")
    ++ ",error=" ++ (match r.error with | some e => e | none => "undefined")

/-- The `for (const tc of response.toolCalls)` body (types.ts lines 513-545):
re-parse the arguments (a second `JSON.parse` of the same string), execute,
and accumulate, in order: the tool-role `AgentMessage`s pushed to
`allMessages`, the tool-role `LLMMessage`s pushed to `toolResults`, and the
assistant `LLMMessage` pushed to `messages` once per tool call.  A thrown
parse error aborts the walk, discarding the local accumulators. -/
def execToolCalls (env : LoopEnv) (content : String) (allCalls : List FnCall) :
    List FnCall → Except String (List AgentMessage × List LLMMessage × List LLMMessage)
  | [] => .ok ([], [], [])
  | tc :: rest =>
    match env.parseJson tc.arguments with
    | .error e => .error e
    | .ok args =>
      let result := Agent.executeToolCall env.tools
        { id := tc.id, toolName := tc.name, arguments := args }
      match execToolCalls env content allCalls rest with
      | .error e => .error e
      | .ok (ams, trs, aps) =>
        .ok ({ role := .tool, content := stringifyToolResult result,
               toolResult := some result } :: ams,
             { role := .tool, content := stringifyToolResult result,
               toolCallId := some tc.id } :: trs,
             { role := .assistant, content := content,
               toolCalls := some allCalls } :: aps)

/-- The value returned by `runAgentLoop` (types.ts line 476); `result` is the
assistant's final text or the iteration-exhaustion sentinel. -/
structure RunLoopOut where
  messages : List AgentMessage
  result : String
deriving DecidableEq

/-- The `while (iterations < maxIterations)` body of `Agent.runAgentLoop`
(types.ts lines 481-548), recursing on the remaining iteration budget.
Output: the returned value (or the thrown exception), the agent's mutable
fields, and the total number of model calls made (the final value of the
`iterations` counter). -/
def loopGo (env : LoopEnv) :
    Nat → AgentVars → List LLMMessage → List AgentMessage → Nat →
    Except String RunLoopOut × AgentVars × Nat
  | 0, v, _, allMessages, calls =>
    (.ok { messages := allMessages, result := "Maximum iterations reached" },
     { v with state := { v.state with status := .idle } }, calls)
  | fuel + 1, v, messages, allMessages, calls =>
    let v1 : AgentVars := { v with state := { v.state with status := .thinking } }
    match env.model (calls + 1) with
    | .error e => (.error e, v1, calls + 1)
    | .ok resp =>
      match parseOptCalls env.parseJson resp.toolCalls with
      | .error e => (.error e, v1, calls + 1)
      | .ok otc =>
        let allMessages1 := allMessages ++
          [{ role := .assistant, content := resp.content, toolCalls := otc }]
        if resp.finishReason = FinishReason.stop ∨ (resp.toolCalls.getD []).isEmpty = true then
          (.ok { messages := allMessages1, result := resp.content },
           { v1 with state := { v1.state with status := .idle } }, calls + 1)
        else
          let v2 : AgentVars := { v1 with state := { v1.state with status := .executing } }
          match execToolCalls env resp.content (resp.toolCalls.getD []) (resp.toolCalls.getD []) with
          | .error e => (.error e, v2, calls + 1)
          | .ok (ams, trs, aps) =>
            loopGo env fuel v2 (messages ++ aps ++ trs) (allMessages1 ++ ams) (calls + 1)

/-- `Agent.runAgentLoop` (types.ts lines 473-555). -/
def Agent.runAgentLoop (env : LoopEnv) (v : AgentVars)
    (initialMessages : List LLMMessage) (maxIterations : Nat) :
    Except String RunLoopOut × AgentVars × Nat :=
  loopGo env maxIterations v initialMessages [] 0

-- ============================================
-- Orchestrator: delegation, selection
-- (part_007 lines 26-284)
-- ============================================

/-- `SubAgent` (part_007 lines 19-24); the held `Agent` is abstracted by the
behavior of its `execute` method on the delegated task. -/
structure SubAgent where
  id : String
  name : String
  agent : Task → Except String TaskResult
  capabilities : List String

/-- The `Orchestrator` fields touched by delegation (part_007 lines 27-29). -/
structure OrchState where
  subAgents : List (String × SubAgent) := []
  pendingTasks : List (String × Task) := []
  completedTasks : List (String × TaskResult) := []

/-- The `Task` constructed inside `delegateTask` (part_007 lines 98-108);
`newId` is the fresh `uuidv4()`, `t0` the creation clock read. -/
def Orchestrator.newTask (agentId taskDescription : String) (context : Option String)
    (newId : String) (t0 : Nat) : Task :=
  { id := newId
    description := taskDescription
    priority := .medium
    status := .in_progress
    assignedTo := some agentId
    subTasks := []
    createdAt := t0
    updatedAt := t0
    metadata := match context with | some c => [("context", c)] | none => [] }

/-- `Orchestrator.delegateTask` (part_007 lines 83-139).  `t1` is the clock
read stamped into `updatedAt` after the sub-agent finishes.  Returns the
`TaskResult`, the final state of the created `Task` object (none when the
agent id is unknown and no task is created), and the updated maps. -/
def Orchestrator.delegateTask (s : OrchState) (agentId taskDescription : String)
    (context : Option String) (newId : String) (t0 t1 : Nat) :
    TaskResult × Option Task × OrchState :=
  match alistLookup s.subAgents agentId with
  | none =>
    ({ success := false, error := some ("Sub-agent not found: " ++ agentId) }, none, s)
  | some subAgent =>
    let task := Orchestrator.newTask agentId taskDescription context newId t0
    let s1 : OrchState := { s with pendingTasks := alistSet s.pendingTasks task.id task }
    match subAgent.agent task with
    | .ok result =>
      let task2 := { task with
        status := if result.success then TaskStatus.completed else TaskStatus.failed
        result := some result
        updatedAt := t1 }
      (result, some task2,
       { s1 with
         pendingTasks := alistDelete s1.pendingTasks task.id
         completedTasks := alistSet s1.completedTasks task.id result })
    | .error e =>
      let r : TaskResult := { success := false, error := some e }
      let task2 := { task with status := TaskStatus.failed, result := some r, updatedAt := t1 }
      (r, some task2,
       { s1 with
         pendingTasks := alistDelete s1.pendingTasks task.id
         completedTasks := alistSet s1.completedTasks task.id r })

/-- The `for (const [id, subAgent] of this.subAgents)` scan of
`selectBestAgent` (part_007 lines 150-156): first sub-agent, in insertion
order, one of whose lowercased capabilities is a substring of the lowercased
description. -/
def Orchestrator.findMatch : List (String × SubAgent) → String → Option String
  | [], _ => none
  | p :: rest, task =>
    if p.2.capabilities.any (fun c => strIncludes task (strToLower c)) then some p.1
    else Orchestrator.findMatch rest task

/-- `Orchestrator.selectBestAgent` (part_007 lines 145-161).  The fallback is
`firstAgent?.id || null`: an empty-string id is falsy in JS and yields null. -/
def Orchestrator.selectBestAgent (agents : List (String × SubAgent))
    (taskDescription : String) : Option String :=
  let task := strToLower taskDescription
  match Orchestrator.findMatch agents task with
  | some id => some id
  | none =>
    match agents.head? with
    | some p => if p.2.id = "" then none else some p.2.id
    | none => none

-- ============================================
-- Concrete orchestrators' execute
-- (part_005 lines 44-82, MasterOrchestrator.ts lines 201-247)
-- ============================================

/-- `this.state.status = 'thinking'; this.state.currentTask = task.id`
(the opening lines of every concrete `execute`). -/
def startVars (v : AgentVars) (task : Task) : AgentVars :=
  { v with state := { v.state with status := .thinking, currentTask := some task.id } }

/-- JS `s || dflt` on an optional string: `undefined` and the empty string
are falsy. -/
def strOr (s : Option String) (dflt : String) : String :=
  match s with
  | some v => if v = "" then dflt else v
  | none => dflt

/-- `ContentOrchestrator.buildTaskPrompt` (part_005 lines 84-106). -/
def ContentOrchestrator.buildTaskPrompt (task : Task) : String :=
  let p0 := "Content Task: " ++ task.description ++ "\n"
  let p1 := match alistLookup task.metadata "topic" with
    | some t => if t = "" then p0 else p0 ++ "\nTopic: " ++ t ++ "\n"
    | none => p0
  let p2 := match alistLookup task.metadata "tone" with
    | some t => if t = "" then p1 else p1 ++ "\nTone: " ++ t ++ "\n"
    | none => p1
  let p3 := match alistLookup task.metadata "format" with
    | some f => if f = "" then p2 else p2 ++ "\nFormat: " ++ f ++ "\n"
    | none => p2
  let p4 := match alistLookup task.metadata "data" with
    | some d => if d = "" then p3 else p3 ++ "\nData to include:\n" ++ d ++ "\n"
    | none => p3
  p4 ++ "\nCreate the requested content."

/-- The message list built by `ContentOrchestrator.execute`
(part_005 lines 52-61); `systemPrompt` is `this.config.systemPrompt`. -/
def ContentOrchestrator.messages0 (systemPrompt : Option String) (task : Task) :
    List LLMMessage :=
  [{ role := .system, content := strOr systemPrompt "You are a content orchestrator." },
   { role := .user, content := ContentOrchestrator.buildTaskPrompt task }]

/-- `ContentOrchestrator.execute` (part_005 lines 44-82): try/catch around
the whole body; `startTime`/`endTime` are the `Date.now()` reads at entry and
at return. -/
def ContentOrchestrator.execute (systemPrompt : Option String) (env : LoopEnv)
    (v : AgentVars) (task : Task) (startTime endTime : Nat) : TaskResult × AgentVars :=
  match Agent.runAgentLoop env (startVars v task)
      (ContentOrchestrator.messages0 systemPrompt task) 10 with
  | (.ok out, v2, _) =>
    ({ success := true, output := some out.result, executionTime := some (endTime - startTime) },
     { v2 with state := { v2.state with status := .idle, lastActivity := some endTime } })
  | (.error e, v2, _) =>
    ({ success := false, error := some e, executionTime := some (endTime - startTime) },
     { v2 with state := { v2.state with status := .error } })

/-- The message list built by `MasterOrchestrator.execute`
(MasterOrchestrator.ts lines 209-226): system prompt, the task description,
and — when `task.metadata?.context` is truthy — an additional context
message. -/
def MasterOrchestrator.messages0 (systemPrompt : Option String) (task : Task) :
    List LLMMessage :=
  [{ role := .system, content := strOr systemPrompt "You are a master orchestrator." },
   { role := .user, content := task.description }] ++
  (match alistLookup task.metadata "context" with
   | some c => if c = "" then [] else [{ role := .user, content := "Additional context: " ++ c }]
   | none => [])

/-- `MasterOrchestrator.execute` (MasterOrchestrator.ts lines 201-247). -/
def MasterOrchestrator.execute (systemPrompt : Option String) (env : LoopEnv)
    (v : AgentVars) (task : Task) (startTime endTime : Nat) : TaskResult × AgentVars :=
  match Agent.runAgentLoop env (startVars v task)
      (MasterOrchestrator.messages0 systemPrompt task) 20 with
  | (.ok out, v2, _) =>
    ({ success := true, output := some out.result, executionTime := some (endTime - startTime) },
     { v2 with state := { v2.state with status := .idle, lastActivity := some endTime } })
  | (.error e, v2, _) =>
    ({ success := false, error := some e, executionTime := some (endTime - startTime) },
     { v2 with state := { v2.state with status := .error } })

-- ============================================
-- Statistical analysis tool (analytics.ts lines 12-94)
-- ============================================

/-- Ascending insertion, modelling `[...numericData].sort((a, b) => a - b)`. -/
def insertSorted (x : ℚ) : List ℚ → List ℚ
  | [] => [x]
  | y :: ys => if x ≤ y then x :: y :: ys else y :: insertSorted x ys

/-- Ascending sort of the data. -/
def sortQ (l : List ℚ) : List ℚ := l.foldr insertSorted []

/-- One frequency bump for the `mode` computation (analytics.ts line 66). -/
def bumpFreq : List (ℚ × Nat) → ℚ → List (ℚ × Nat)
  | [], x => [(x, 1)]
  | (y, c) :: rest, x =>
    if y = x then (y, c + 1) :: rest else (y, c) :: bumpFreq rest x

/-- The `results` record built by the statistical tool (analytics.ts lines
50-83); `std` is `Math.sqrt(variance)` and is exposed separately as a real
(`statStd`). -/
structure StatResults where
  count : Option Nat := none
  sum : Option ℚ := none
  mean : Option ℚ := none
  min : Option ℚ := none
  max : Option ℚ := none
  median : Option ℚ := none
  mode : Option (List ℚ) := none
  variance : Option ℚ := none
  q1 : Option ℚ := none
  q3 : Option ℚ := none
  iqr : Option ℚ := none
deriving DecidableEq

/-- The tool's returned `ToolResult`, with the numeric `data` record kept
structured; `metadata` is not observed and is omitted. -/
structure StatOutcome where
  success : Bool
  error : Option String := none
  results : StatResults := {}
deriving DecidableEq

/-- `statisticalAnalysisTool.execute` (analytics.ts lines 30-93).  The input
is already a list of numbers, embedded as exact rationals (NaN is not
representable, so the `typeof n === 'number' && !isNaN(n)` filter is the
identity here).  Quartile indices `Math.floor(n*0.25)` / `Math.floor(n*0.75)`
are the natural-number divisions `n/4` and `3*n/4`. -/
def statisticalAnalysis (data : List ℚ) (operations : List String) : StatOutcome :=
  if data.isEmpty then
    { success := false, error := some "Data must be a non-empty array of numbers" }
  else
    let numericData := data
    if numericData.isEmpty then
      { success := false, error := some "No valid numeric values in data" }
    else
      let sorted := sortQ numericData
      let n := sorted.length
      let sum := sorted.foldl (· + ·) 0
      let mean := sum / (n : ℚ)
      let r0 : StatResults := {}
      let r1 := if operations.contains "count" then { r0 with count := some n } else r0
      let r2 := if operations.contains "sum" then { r1 with sum := some sum } else r1
      let r3 := if operations.contains "mean" then { r2 with mean := some mean } else r2
      let r4 := if operations.contains "min" then { r3 with min := sorted.head? } else r3
      let r5 := if operations.contains "max" then { r4 with max := sorted.getLast? } else r4
      let r6 :=
        if operations.contains "median" then
          { r5 with median := some (if n % 2 = 0
              then ((sorted.getD (n / 2 - 1) 0) + (sorted.getD (n / 2) 0)) / 2
              else sorted.getD (n / 2) 0) }
        else r5
      let r7 :=
        if operations.contains "mode" then
          let freq := sorted.foldl bumpFreq []
          let maxFreq := (freq.map (fun p => p.2)).foldl Nat.max 0
          { r6 with mode := some ((freq.filter (fun p => p.2 == maxFreq)).map (fun p => p.1)) }
        else r6
      let r8 :=
        if operations.contains "variance" || operations.contains "std" then
          let varianceV := (sorted.foldl (fun acc x => acc + (x - mean) ^ 2) 0) / (n : ℚ)
          { r7 with variance := some varianceV }
        else r7
      let r9 :=
        if operations.contains "quartiles" then
          let q1 := sorted.getD (n / 4) 0
          let q3 := sorted.getD (3 * n / 4) 0
          { r8 with q1 := some q1, q3 := some q3, iqr := some (q3 - q1) }
        else r8
      { success := true, results := r9 }

/-- `results.std = Math.sqrt(variance)` (analytics.ts line 76), as an exact
real square root of the rational variance. -/
noncomputable def statStd (data : List ℚ) (operations : List String) : Option ℝ :=
  ((statisticalAnalysis data operations).results.variance).map (fun q => Real.sqrt (q : ℝ))

-- ============================================
-- Concrete environments used to exercise the theorems
-- ============================================

/-- A model that throws on every call. -/
def envC1 : LoopEnv :=
  { tools := []
    model := fun _ => .error "boom"
    parseJson := fun _ => .error "bad" }

/-- A minimal concrete task. -/
def taskC1 : Task := { id := "t", description := "d" }

/-- A sub-agent whose `execute` always throws. -/
def wSubC2 : SubAgent :=
  { id := "a1", name := "A", agent := fun _ => Except.error "boom", capabilities := [] }

/-- An orchestrator state with `wSubC2` registered. -/
def wStateC2 : OrchState := { subAgents := [("a1", wSubC2)] }

/-- A response requesting one tool call whose arguments do not parse. -/
def respBad : LLMResponse :=
  { content := "c"
    toolCalls := some [{ id := "1", name := "t", arguments := "bad" }]
    finishReason := .tool_calls }

/-- A response requesting one well-formed tool call. -/
def respOkCall : LLMResponse :=
  { content := "c"
    toolCalls := some [{ id := "1", name := "t", arguments := "ok" }]
    finishReason := .tool_calls }

/-- A model that always requests one tool call whose arguments do not parse. -/
def envC3 : LoopEnv :=
  { tools := []
    model := fun _ => .ok respBad
    parseJson := fun s => if s = "ok" then .ok [] else .error "Unexpected token" }

/-- Zero registered tools; the model nevertheless requests a (well-formed)
tool call on every turn. -/
def envC4 : LoopEnv :=
  { tools := []
    model := fun _ => .ok respOkCall
    parseJson := fun s => if s = "ok" then .ok [] else .error "Unexpected token" }

/-- Zero registered tools; the model answers the first turn with plain text. -/
def envC4w : LoopEnv :=
  { tools := []
    model := fun _ => .ok { content := "done", toolCalls := none, finishReason := .stop }
    parseJson := fun _ => .error "no parse" }

/-- A tool whose body always throws. -/
def wToolC6 : Tool :=
  { definition := { name := "boom" }, execute := fun _ => Except.error "kaput" }

/-- A response requesting one tool call whose arguments do not parse, for the
claim C7 counterexample. -/
def respBadC7 : LLMResponse :=
  { content := "c"
    toolCalls := some [{ id := "1", name := "t", arguments := "bad" }]
    finishReason := .tool_calls }

/-- A response requesting one well-formed tool call, for the claim C7
witness. -/
def respOkCallC7 : LLMResponse :=
  { content := "c"
    toolCalls := some [{ id := "1", name := "t", arguments := "ok" }]
    finishReason := .tool_calls }

/-- A model that always requests one tool call whose arguments do not parse. -/
def envC7 : LoopEnv :=
  { tools := []
    model := fun _ => .ok respBadC7
    parseJson := fun s => if s = "ok" then .ok [] else .error "Unexpected token" }

/-- A model that always requests one well-formed tool call. -/
def envC7w : LoopEnv :=
  { tools := []
    model := fun _ => .ok respOkCallC7
    parseJson := fun s => if s = "ok" then .ok [] else .error "Unexpected token" }

/-- The two sub-agents of the C8 scenario, in registration order. -/
def subAnalytics : SubAgent :=
  { id := "a", name := "Analytics", agent := fun _ => .ok { success := true },
    capabilities := ["analytics"] }

/-- Second scenario sub-agent, capabilities `search`, `web`. -/
def subSearch : SubAgent :=
  { id := "b", name := "Search", agent := fun _ => .ok { success := true },
    capabilities := ["search", "web"] }

/-- A registered sub-agent whose id is the empty string. -/
def subEmptyId : SubAgent :=
  { id := "", name := "X", agent := fun _ => .ok { success := true },
    capabilities := ["analytics"] }

-- ============================================
-- Shared lemmas about the map embedding
-- ============================================

/-- Setting a key makes it look up to the new value. -/
theorem alistLookup_set_self {α : Type} (k : String) (v : α) :
    ∀ l : List (String × α), alistLookup (alistSet l k v) k = some v := by
  intro l
  induction l with
  | nil => simp [alistSet, alistLookup, List.find?]
  | cons p rest ih =>
    by_cases h : p.1 == k
    · simp [alistSet, h, alistLookup, List.find?]
    · simpa [alistSet, h, alistLookup, List.find?] using ih

/-- Deleting a key removes it from lookup. -/
theorem alistLookup_delete_self {α : Type} (k : String) :
    ∀ l : List (String × α), alistLookup (alistDelete l k) k = none := by
  intro l
  induction l with
  | nil => simp [alistDelete, alistLookup]
  | cons p rest ih =>
    by_cases h : p.1 == k
    · simp only [alistDelete, List.filter_cons, h, Bool.not_true, cond_false] at ih ⊢
      exact ih
    · simp [alistDelete, h, alistLookup, List.find?]

-- ============================================
-- Claim C5
-- ============================================

/-- Claim C5: for an agent id not present in `subAgents`, `delegateTask`
returns a failed `TaskResult` without throwing (the embedding is a total
function), creates no task, and leaves the orchestrator state — in
particular `pendingTasks` and `completedTasks` — exactly as it was. -/
theorem delegateTask_unknown_agent (s : OrchState) (agentId taskDescription : String)
    (context : Option String) (newId : String) (t0 t1 : Nat)
    (h : alistLookup s.subAgents agentId = none) :
    Orchestrator.delegateTask s agentId taskDescription context newId t0 t1 =
      ({ success := false, error := some ("Sub-agent not found: " ++ agentId) }, none, s) := by
  simp [Orchestrator.delegateTask, h]

/-- Claim C5 witness: the theorem applied to an empty orchestrator state. -/
theorem delegateTask_unknown_agent_witness :
    Orchestrator.delegateTask {} "ghost" "d" none "t" 0 1 =
      ({ success := false, error := some "Sub-agent not found: ghost" }, none, {}) :=
  delegateTask_unknown_agent {} "ghost" "d" none "t" 0 1 rfl

-- ============================================
-- Claim C6
-- ============================================

/-- Claim C6: `executeToolCall` is total (it returns a `ToolResult` for every
registry and call, never throwing): an unregistered tool name yields a failed
result with an error message, a tool body that throws is caught and its
message returned in a failed result, and a tool body that returns is passed
through. -/
theorem executeToolCall_total (tools : List Tool) (toolCall : ToolCall) :
    (lookupTool tools toolCall.toolName = none →
      Agent.executeToolCall tools toolCall =
        { success := false, error := some ("Unknown tool: " ++ toolCall.toolName) }) ∧
    (∀ t e, lookupTool tools toolCall.toolName = some t →
      t.execute toolCall.arguments = .error e →
      Agent.executeToolCall tools toolCall = { success := false, error := some e }) ∧
    (∀ t r, lookupTool tools toolCall.toolName = some t →
      t.execute toolCall.arguments = .ok r →
      Agent.executeToolCall tools toolCall = r) :=
  ⟨fun h => by simp [Agent.executeToolCall, h],
   fun t e h1 h2 => by simp [Agent.executeToolCall, h1, h2],
   fun t r h1 h2 => by simp [Agent.executeToolCall, h1, h2]⟩

/-- Claim C6 witness: the theorem applied to an empty registry (unknown tool)
and to a registry holding a tool that always throws. -/
theorem executeToolCall_total_witness :
    Agent.executeToolCall [] { id := "1", toolName := "nope", arguments := [] } =
      { success := false, error := some "Unknown tool: nope" } ∧
    Agent.executeToolCall [wToolC6] { id := "2", toolName := "boom", arguments := [] } =
      { success := false, error := some "kaput" } :=
  ⟨(executeToolCall_total [] { id := "1", toolName := "nope", arguments := [] }).1 rfl,
   (executeToolCall_total [wToolC6] { id := "2", toolName := "boom", arguments := [] }).2.1
     wToolC6 "kaput" rfl rfl⟩

-- ============================================
-- Claim C2
-- ============================================

/-- Claim C2: delegating to a registered sub-agent — even one whose `execute`
throws — always ends with the created task's id absent from `pendingTasks`
and bound in `completedTasks`, the task marked `completed` exactly when the
result succeeded and `failed` otherwise, any thrown exception converted into
a failed `TaskResult` carrying its message, and `updatedAt` stamped with the
post-execution clock read. -/
theorem delegateTask_bookkeeping (s : OrchState) (agentId taskDescription : String)
    (context : Option String) (newId : String) (t0 t1 : Nat) (sub : SubAgent)
    (h : alistLookup s.subAgents agentId = some sub) :
    ∃ r task s2,
      Orchestrator.delegateTask s agentId taskDescription context newId t0 t1 =
        (r, some task, s2) ∧
      alistLookup s2.pendingTasks newId = none ∧
      alistLookup s2.completedTasks newId = some r ∧
      task.id = newId ∧
      task.status = (if r.success then TaskStatus.completed else TaskStatus.failed) ∧
      task.updatedAt = t1 ∧
      (∀ e, sub.agent (Orchestrator.newTask agentId taskDescription context newId t0) =
          .error e → r.success = false ∧ r.error = some e) := by
  cases hE : sub.agent (Orchestrator.newTask agentId taskDescription context newId t0) with
  | ok result =>
    simp only [Orchestrator.delegateTask, h]
    rw [hE]
    exact ⟨result, _, _, rfl, alistLookup_delete_self _ _, alistLookup_set_self _ _ _,
      rfl, rfl, rfl, fun e he => absurd he (by simp)⟩
  | error e0 =>
    simp only [Orchestrator.delegateTask, h]
    rw [hE]
    refine ⟨{ success := false, error := some e0 }, _, _, rfl, alistLookup_delete_self _ _,
      alistLookup_set_self _ _ _, rfl, rfl, rfl, fun e he => ?_⟩
    cases he
    exact ⟨rfl, rfl⟩

/-- Claim C2 witness: the theorem applied to a state holding one sub-agent
whose `execute` always throws. -/
theorem delegateTask_bookkeeping_witness :
    ∃ r task s2,
      Orchestrator.delegateTask wStateC2 "a1" "do" none "t1" 0 5 = (r, some task, s2) ∧
      alistLookup s2.pendingTasks "t1" = none ∧
      alistLookup s2.completedTasks "t1" = some r ∧
      task.id = "t1" ∧
      task.status = (if r.success then TaskStatus.completed else TaskStatus.failed) ∧
      task.updatedAt = 5 ∧
      (∀ e, wSubC2.agent (Orchestrator.newTask "a1" "do" none "t1" 0) = .error e →
        r.success = false ∧ r.error = some e) :=
  delegateTask_bookkeeping wStateC2 "a1" "do" none "t1" 0 5 wSubC2 rfl

-- ============================================
-- Claim C8
-- ============================================

/-- The capability scan of `selectBestAgent` is a first-match search. -/
theorem findMatch_eq_find (task : String) :
    ∀ agents : List (String × SubAgent),
      Orchestrator.findMatch agents task =
        (agents.find? (fun p =>
          p.2.capabilities.any (fun c => strIncludes task (strToLower c)))).map
          (fun p => p.1) := by
  intro agents
  induction agents with
  | nil => simp [Orchestrator.findMatch]
  | cons p rest ih =>
    by_cases h : p.2.capabilities.any (fun c => strIncludes task (strToLower c))
    · simp [Orchestrator.findMatch, h, List.find?]
    · simp [Orchestrator.findMatch, h, List.find?, ih]

/-- Claim C8 counterexample: with one registered sub-agent whose id is the
empty string, and a description matching no capability, `selectBestAgent`
returns none even though a sub-agent is registered — the fallback is
`firstAgent?.id || null` and the empty string is falsy in JS.  This
falsifies both "if no capability matches it returns the first registered
sub-agent's id" and "returns null if and only if no sub-agents are
registered". -/
theorem selectBestAgent_empty_id_cex :
    Orchestrator.selectBestAgent [("x", subEmptyId)] "nothing" = none ∧
    [("x", subEmptyId)] ≠ ([] : List (String × SubAgent)) :=
  ⟨rfl, by simp⟩

/-- Claim C8 (amended): `selectBestAgent` returns the id of the first
sub-agent, in registration order, one of whose capability strings is — after
lowercasing both sides — a substring of the description; if no capability
matches it falls back to the first registered sub-agent's id, except that an
empty-string id yields none (JS `|| null` on a falsy id); it returns none
when no sub-agents are registered.  In particular the scenario holds:
capabilities `analytics` versus `search`/`web` on "search the web for X"
select the second sub-agent. -/
theorem selectBestAgent_characterization (agents : List (String × SubAgent)) (desc : String) :
    (Orchestrator.selectBestAgent agents desc =
      match agents.find? (fun p =>
          p.2.capabilities.any (fun c => strIncludes (strToLower desc) (strToLower c))) with
      | some p => some p.1
      | none =>
        match agents.head? with
        | some p => if p.2.id = "" then none else some p.2.id
        | none => none) ∧
    Orchestrator.selectBestAgent [("a", subAnalytics), ("b", subSearch)]
      "search the web for X" = some "b" := by
  constructor
  · simp only [Orchestrator.selectBestAgent, findMatch_eq_find]
    cases h : agents.find? (fun p =>
        p.2.capabilities.any (fun c => strIncludes (strToLower desc) (strToLower c))) with
    | none => simp
    | some p => simp
  · rfl

-- ============================================
-- Shared lemmas about the agent loop
-- ============================================

/-- If every serialized argument parses, `parseToolCalls` succeeds. -/
theorem parseToolCalls_ok_of_forall (parse : String → Except String Params) :
    ∀ l : List FnCall, (∀ tc ∈ l, ∃ args, parse tc.arguments = .ok args) →
      ∃ pl, Agent.parseToolCalls parse l = .ok pl := by
  intro l
  induction l with
  | nil => exact fun _ => ⟨[], rfl⟩
  | cons tc rest ih =>
    intro h
    obtain ⟨args, ha⟩ := h tc (by simp)
    obtain ⟨pl, hp⟩ := ih (fun x hx => h x (by simp [hx]))
    exact ⟨{ id := tc.id, toolName := tc.name, arguments := args } :: pl,
      by simp [Agent.parseToolCalls, ha, hp]⟩

/-- If every serialized argument parses, the tool-execution walk succeeds
(tool execution itself never throws past `executeToolCall`). -/
theorem execToolCalls_ok_of_forall (env : LoopEnv) (content : String) (allCalls : List FnCall) :
    ∀ l : List FnCall, (∀ tc ∈ l, ∃ args, env.parseJson tc.arguments = .ok args) →
      ∃ t, execToolCalls env content allCalls l = .ok t := by
  intro l
  induction l with
  | nil => exact fun _ => ⟨([], [], []), rfl⟩
  | cons tc rest ih =>
    intro h
    obtain ⟨args, ha⟩ := h tc (by simp)
    obtain ⟨t, ht⟩ := ih (fun x hx => h x (by simp [hx]))
    refine ⟨({ role := .tool,
               content := stringifyToolResult (Agent.executeToolCall env.tools
                 { id := tc.id, toolName := tc.name, arguments := args }),
               toolResult := some (Agent.executeToolCall env.tools
                 { id := tc.id, toolName := tc.name, arguments := args }) } :: t.1,
             { role := .tool,
               content := stringifyToolResult (Agent.executeToolCall env.tools
                 { id := tc.id, toolName := tc.name, arguments := args }),
               toolCallId := some tc.id } :: t.2.1,
             { role := .assistant, content := content,
               toolCalls := some allCalls } :: t.2.2), ?_⟩
    simp [execToolCalls, ha, ht]

/-- The loop body never touches `messageHistory` or `state.messages`: it
accumulates the transcript in local variables and only ever assigns
`state.status`. -/
theorem loopGo_preserves_vars (env : LoopEnv) :
    ∀ (fuel : Nat) (v : AgentVars) (msgs : List LLMMessage)
      (allM : List AgentMessage) (calls : Nat),
      (loopGo env fuel v msgs allM calls).2.1.messageHistory = v.messageHistory ∧
      (loopGo env fuel v msgs allM calls).2.1.state.messages = v.state.messages := by
  intro fuel
  induction fuel with
  | zero => intro v msgs allM calls; simp [loopGo]
  | succ fuel ih =>
    intro v msgs allM calls
    rcases hm : env.model (calls + 1) with e | resp
    · simp [loopGo, hm]
    · rcases hp : parseOptCalls env.parseJson resp.toolCalls with e | otc
      · simp [loopGo, hm, hp]
      · by_cases hc : resp.finishReason = FinishReason.stop ∨ resp.toolCalls.getD [] = []
        · simp [loopGo, hm, hp, hc]
        · rcases hx : execToolCalls env resp.content (resp.toolCalls.getD [])
              (resp.toolCalls.getD []) with e | t
          · simp [loopGo, hm, hp, hc, hx]
          · obtain ⟨ams, trs, aps⟩ := t
            have hc2 : ¬(resp.finishReason = FinishReason.stop ∨
                (resp.toolCalls.getD []).isEmpty = true) := by simpa using hc
            simp only [loopGo, hm, hp, hx]
            rw [if_neg hc2]
            exact ⟨(ih _ _ _ _).1, (ih _ _ _ _).2⟩

-- ============================================
-- Claim C10
-- ============================================

/-- Claim C10: `runAgentLoop` never appends to the agent's persistent
`messageHistory` or to `state.messages` — in every run (and in particular in
every run that returns normally) both come out exactly as they went in; the
returned transcript is accumulated in a fresh local list. -/
theorem runAgentLoop_preserves_history (env : LoopEnv) (v : AgentVars)
    (initialMessages : List LLMMessage) (maxIterations : Nat) :
    (Agent.runAgentLoop env v initialMessages maxIterations).2.1.messageHistory =
      v.messageHistory ∧
    (Agent.runAgentLoop env v initialMessages maxIterations).2.1.state.messages =
      v.state.messages :=
  loopGo_preserves_vars env maxIterations v initialMessages [] 0

-- ============================================
-- Claim C3
-- ============================================

/-- A tool call whose arguments fail to parse makes the loop throw the parse
error on the turn that receives it. -/
theorem loopGo_first_parse_error (env : LoopEnv) (v : AgentVars)
    (msgs : List LLMMessage) (n : Nat) (resp : LLMResponse) (tc : FnCall)
    (rest : List FnCall) (e : String)
    (h1 : env.model 1 = .ok resp)
    (h2 : resp.toolCalls = some (tc :: rest))
    (h3 : env.parseJson tc.arguments = .error e) :
    (Agent.runAgentLoop env v msgs (n + 1)).1 = .error e := by
  simp [Agent.runAgentLoop, loopGo, h1, h2, parseOptCalls, Agent.parseToolCalls, h3]

/-- Claim C3 counterexample: with a model whose (only) tool call carries
non-JSON arguments, `runAgentLoop` returns the thrown parse error — it does
not record a failed `ToolResult` for the call and does not continue to a
second turn — falsifying "runAgentLoop does not throw and does not abort". -/
theorem runAgentLoop_parse_failure_throws_cex :
    (Agent.runAgentLoop envC3 {} [] 5).1 = Except.error "Unexpected token" := rfl

/-- Claim C3 (amended): a model tool call whose serialized arguments are not
valid JSON makes `runAgentLoop` throw the parse error to its caller (the
`JSON.parse` calls at types.ts lines 495 and 517 are unguarded); the
exception is then caught one level up, by the concrete orchestrator's
`execute`, which converts it into a failed `TaskResult`. -/
theorem runAgentLoop_parse_failure_propagates (env : LoopEnv) (v : AgentVars)
    (msgs : List LLMMessage) (n : Nat) (resp : LLMResponse) (tc : FnCall)
    (rest : List FnCall) (e : String)
    (h1 : env.model 1 = .ok resp)
    (h2 : resp.toolCalls = some (tc :: rest))
    (h3 : env.parseJson tc.arguments = .error e) :
    (Agent.runAgentLoop env v msgs (n + 1)).1 = .error e ∧
    (∀ systemPrompt task startTime endTime,
      (ContentOrchestrator.execute systemPrompt env v task startTime endTime).1 =
        { success := false, error := some e,
          executionTime := some (endTime - startTime) }) := by
  refine ⟨loopGo_first_parse_error env v msgs n resp tc rest e h1 h2 h3, ?_⟩
  intro systemPrompt task startTime endTime
  have h10 : (Agent.runAgentLoop env (startVars v task)
      (ContentOrchestrator.messages0 systemPrompt task) 10).1 = .error e :=
    loopGo_first_parse_error env (startVars v task)
      (ContentOrchestrator.messages0 systemPrompt task) 9 resp tc rest e h1 h2 h3
  rcases hL : Agent.runAgentLoop env (startVars v task)
      (ContentOrchestrator.messages0 systemPrompt task) 10 with ⟨res, v2, cnt⟩
  rw [hL] at h10
  simp only at h10
  subst h10
  simp [ContentOrchestrator.execute, hL]

/-- Claim C3 witness: the amended theorem applied to a concrete model whose
tool-call arguments do not parse. -/
theorem runAgentLoop_parse_failure_witness :
    (Agent.runAgentLoop envC3 {} [] 3).1 = Except.error "Unexpected token" ∧
    (∀ systemPrompt task startTime endTime,
      (ContentOrchestrator.execute systemPrompt envC3 {} task startTime endTime).1 =
        { success := false, error := some "Unexpected token",
          executionTime := some (endTime - startTime) }) :=
  runAgentLoop_parse_failure_propagates envC3 {} [] 2 respBad
    { id := "1", name := "t", arguments := "bad" } [] "Unexpected token" rfl rfl rfl

-- ============================================
-- Claim C4
-- ============================================

/-- Claim C4 counterexample: an agent with zero registered tools whose model
requests a (well-formed) tool call on every turn: `runAgentLoop` with
`maxIterations = 2` performs two model calls, falsifying "terminates after
exactly one model call ... for every possible model response on that first
turn".  The loop's termination test reads only the response, never the
registry. -/
theorem runAgentLoop_no_tools_two_calls_cex :
    envC4.tools = [] ∧ (Agent.runAgentLoop envC4 {} [] 2).2.2 = 2 := ⟨rfl, rfl⟩

/-- Claim C4 (amended): with zero registered tools — as with any registry —
`runAgentLoop` terminates after exactly one model call precisely when the
first response carries finish reason `stop` or no tool calls (and the
response's tool-call list, if present, parses); the empty registry by itself
does not bound the number of model calls. -/
theorem runAgentLoop_first_response_terminates (env : LoopEnv) (v : AgentVars)
    (msgs : List LLMMessage) (n : Nat) (resp : LLMResponse)
    (otc : Option (List ToolCall))
    (_htools : env.tools = [])
    (h1 : env.model 1 = .ok resp)
    (hp : parseOptCalls env.parseJson resp.toolCalls = .ok otc)
    (hstop : resp.finishReason = FinishReason.stop ∨ resp.toolCalls.getD [] = []) :
    (Agent.runAgentLoop env v msgs (n + 1)).2.2 = 1 ∧
    (Agent.runAgentLoop env v msgs (n + 1)).1 =
      .ok { messages := [{ role := .assistant, content := resp.content, toolCalls := otc }],
            result := resp.content } := by
  constructor <;> simp [Agent.runAgentLoop, loopGo, h1, hp, hstop]

/-- Claim C4 witness: the amended theorem applied to a tool-less agent whose
model answers the first turn with plain text. -/
theorem runAgentLoop_first_response_terminates_witness :
    (Agent.runAgentLoop envC4w {} [] 7).2.2 = 1 ∧
    (Agent.runAgentLoop envC4w {} [] 7).1 =
      .ok { messages := [{ role := .assistant, content := "done", toolCalls := none }],
            result := "done" } :=
  runAgentLoop_first_response_terminates envC4w {} [] 6
    { content := "done", toolCalls := none, finishReason := .stop } none
    rfl rfl rfl (Or.inl rfl)

-- ============================================
-- Claim C7
-- ============================================

/-- Claim C7 counterexample: a model that always requests a tool call, but
with non-JSON arguments: `runAgentLoop` with `maxIterations = 1` throws the
parse error instead of returning the iteration-exhaustion sentinel,
falsifying the claim's universal quantification over such models. -/
theorem runAgentLoop_maxOne_bad_json_cex :
    (Agent.runAgentLoop envC7 {} [] 1).1 = Except.error "Unexpected token" := rfl

/-- Claim C7 (amended): for every model that requests at least one tool call
on the first turn with finish reason `tool_calls`, and whose serialized
arguments parse as JSON, `runAgentLoop` with `maxIterations = 1` performs
exactly one model call and returns normally with the iteration-exhaustion
sentinel `Maximum iterations reached` — a reported outcome, not a thrown
error. -/
theorem runAgentLoop_maxOne_sentinel (env : LoopEnv) (v : AgentVars)
    (msgs : List LLMMessage) (resp : LLMResponse) (tcs : List FnCall)
    (h1 : env.model 1 = .ok resp)
    (hfr : resp.finishReason = FinishReason.tool_calls)
    (htc : resp.toolCalls = some tcs)
    (hne : tcs ≠ [])
    (hparse : ∀ tc ∈ tcs, ∃ args, env.parseJson tc.arguments = .ok args) :
    (Agent.runAgentLoop env v msgs 1).2.2 = 1 ∧
    ∃ out, (Agent.runAgentLoop env v msgs 1).1 = Except.ok out ∧
      out.result = "Maximum iterations reached" := by
  obtain ⟨pl, hpl⟩ := parseToolCalls_ok_of_forall env.parseJson tcs hparse
  obtain ⟨t, ht⟩ := execToolCalls_ok_of_forall env resp.content tcs tcs hparse
  have hrun : Agent.runAgentLoop env v msgs 1 =
      (Except.ok (RunLoopOut.mk
         ([AgentMessage.mk Role.assistant resp.content (some pl) none] ++ t.1)
         "Maximum iterations reached"),
       { v with state := { v.state with status := AgentStatus.idle } }, 1) := by
    simp [Agent.runAgentLoop, loopGo, h1, htc, parseOptCalls, hpl, hfr, hne, ht]
  refine ⟨by rw [hrun], _, by rw [hrun], rfl⟩

/-- Claim C7 witness: the amended theorem applied to a concrete model that
always requests one well-formed tool call. -/
theorem runAgentLoop_maxOne_sentinel_witness :
    (Agent.runAgentLoop envC7w {} [] 1).2.2 = 1 ∧
    ∃ out, (Agent.runAgentLoop envC7w {} [] 1).1 = Except.ok out ∧
      out.result = "Maximum iterations reached" :=
  runAgentLoop_maxOne_sentinel envC7w {} [] respOkCallC7
    [{ id := "1", name := "t", arguments := "ok" }] rfl rfl rfl (by simp)
    (by intro tc h; simp only [List.mem_singleton] at h; subst h; exact ⟨[], rfl⟩)

-- ============================================
-- Claim C1
-- ============================================

/-- Claim C1: the concrete orchestrators' `execute` never throws — for every
behavior of the model, tools and argument parsing (all of which may throw
inside the loop) it returns a `TaskResult` with `executionTime` measured from
entry to return; on success `success = true`, and any exception escaping the
loop is caught and returned as `success = false` with its message as the
error.  Stated for both embedded concrete orchestrators. -/
theorem execute_catches_all_and_reports (systemPrompt : Option String) (env : LoopEnv)
    (v : AgentVars) (task : Task) (startTime endTime : Nat) :
    ((ContentOrchestrator.execute systemPrompt env v task startTime endTime).1.executionTime =
        some (endTime - startTime) ∧
      ((ContentOrchestrator.execute systemPrompt env v task startTime endTime).1.success = true ∨
        ((ContentOrchestrator.execute systemPrompt env v task startTime endTime).1.success = false ∧
          (ContentOrchestrator.execute systemPrompt env v task startTime endTime).1.error ≠ none)) ∧
      (∀ e, (Agent.runAgentLoop env (startVars v task)
            (ContentOrchestrator.messages0 systemPrompt task) 10).1 = Except.error e →
        (ContentOrchestrator.execute systemPrompt env v task startTime endTime).1 =
          { success := false, error := some e,
            executionTime := some (endTime - startTime) })) ∧
    ((MasterOrchestrator.execute systemPrompt env v task startTime endTime).1.executionTime =
        some (endTime - startTime) ∧
      ((MasterOrchestrator.execute systemPrompt env v task startTime endTime).1.success = true ∨
        ((MasterOrchestrator.execute systemPrompt env v task startTime endTime).1.success = false ∧
          (MasterOrchestrator.execute systemPrompt env v task startTime endTime).1.error ≠ none)) ∧
      (∀ e, (Agent.runAgentLoop env (startVars v task)
            (MasterOrchestrator.messages0 systemPrompt task) 20).1 = Except.error e →
        (MasterOrchestrator.execute systemPrompt env v task startTime endTime).1 =
          { success := false, error := some e,
            executionTime := some (endTime - startTime) })) := by
  constructor
  · rcases hL : Agent.runAgentLoop env (startVars v task)
        (ContentOrchestrator.messages0 systemPrompt task) 10 with ⟨res, v2, cnt⟩
    cases res with
    | ok out =>
      refine ⟨?_, Or.inl ?_, ?_⟩
      · simp [ContentOrchestrator.execute, hL]
      · simp [ContentOrchestrator.execute, hL]
      · intro e he
        simp at he
    | error e0 =>
      refine ⟨?_, Or.inr ⟨?_, ?_⟩, ?_⟩
      · simp [ContentOrchestrator.execute, hL]
      · simp [ContentOrchestrator.execute, hL]
      · simp [ContentOrchestrator.execute, hL]
      · intro e he
        simp at he
        subst he
        simp [ContentOrchestrator.execute, hL]
  · rcases hL : Agent.runAgentLoop env (startVars v task)
        (MasterOrchestrator.messages0 systemPrompt task) 20 with ⟨res, v2, cnt⟩
    cases res with
    | ok out =>
      refine ⟨?_, Or.inl ?_, ?_⟩
      · simp [MasterOrchestrator.execute, hL]
      · simp [MasterOrchestrator.execute, hL]
      · intro e he
        simp at he
    | error e0 =>
      refine ⟨?_, Or.inr ⟨?_, ?_⟩, ?_⟩
      · simp [MasterOrchestrator.execute, hL]
      · simp [MasterOrchestrator.execute, hL]
      · simp [MasterOrchestrator.execute, hL]
      · intro e he
        simp at he
        subst he
        simp [MasterOrchestrator.execute, hL]

/-- Claim C1 witness: the theorem applied to a model that throws on its first
call; both orchestrators' `execute` return the converted failure. -/
theorem execute_catches_witness :
    (ContentOrchestrator.execute none envC1 {} taskC1 2 9).1 =
      { success := false, error := some "boom", executionTime := some 7 } ∧
    (MasterOrchestrator.execute none envC1 {} taskC1 2 9).1 =
      { success := false, error := some "boom", executionTime := some 7 } :=
  ⟨(execute_catches_all_and_reports none envC1 {} taskC1 2 9).1.2.2 "boom" rfl,
   (execute_catches_all_and_reports none envC1 {} taskC1 2 9).2.2.2 "boom" rfl⟩

-- ============================================
-- Claim C9
-- ============================================

/-- Claim C9: the statistical tool on `data = [1,2,3,4,5]` with
`operations = [mean, median, std]` succeeds with `mean = 3`, `median = 3`,
a computed variance of exactly 2, and `std = sqrt 2` (so `std ^ 2 = 2`). -/
theorem statisticalAnalysis_scenario :
    (statisticalAnalysis [1, 2, 3, 4, 5] ["mean", "median", "std"]).success = true ∧
    (statisticalAnalysis [1, 2, 3, 4, 5] ["mean", "median", "std"]).results.mean = some 3 ∧
    (statisticalAnalysis [1, 2, 3, 4, 5] ["mean", "median", "std"]).results.median = some 3 ∧
    (statisticalAnalysis [1, 2, 3, 4, 5] ["mean", "median", "std"]).results.variance = some 2 ∧
    ∃ s : ℝ, statStd [1, 2, 3, 4, 5] ["mean", "median", "std"] = some s ∧
      s ^ 2 = 2 ∧ s = Real.sqrt 2 := by
  have hsort : sortQ [1, 2, 3, 4, 5] = ([1, 2, 3, 4, 5] : List ℚ) := by
    norm_num [sortQ, insertSorted]
  have h9 : statisticalAnalysis [1, 2, 3, 4, 5] ["mean", "median", "std"] =
      StatOutcome.mk true none
        (StatResults.mk none none (some 3) none none (some 3) none (some 2) none none none) := by
    have hcount : ((["mean", "median", "std"] : List String).contains "count") = false := by decide
    have hsum : ((["mean", "median", "std"] : List String).contains "sum") = false := by decide
    have hmean : ((["mean", "median", "std"] : List String).contains "mean") = true := by decide
    have hmin : ((["mean", "median", "std"] : List String).contains "min") = false := by decide
    have hmax : ((["mean", "median", "std"] : List String).contains "max") = false := by decide
    have hmed : ((["mean", "median", "std"] : List String).contains "median") = true := by decide
    have hmode : ((["mean", "median", "std"] : List String).contains "mode") = false := by decide
    have hvarc : ((["mean", "median", "std"] : List String).contains "variance") = false := by
      decide
    have hstd : ((["mean", "median", "std"] : List String).contains "std") = true := by decide
    have hqu : ((["mean", "median", "std"] : List String).contains "quartiles") = false := by
      decide
    simp only [statisticalAnalysis, hsort, hcount, hsum, hmean, hmin, hmax, hmed, hmode,
      hvarc, hstd, hqu]
    norm_num [List.foldl, List.getD]
  refine ⟨by rw [h9], by rw [h9], by rw [h9], by rw [h9], Real.sqrt 2, ?_,
    Real.sq_sqrt (by norm_num), rfl⟩
  have hc : ((2 : ℚ) : ℝ) = (2 : ℝ) := by norm_num
  simp [statStd, h9, hc]

end MultiAgent
